import Mathlib

/-!
Verification of backuoify-mysql (cmd/backupify-mysql/main.go).

The program is a sequential batch job: load config.json, create the backup
directory, run mysqldump per configured database (logging and skipping
per-database failures), bundle the resulting dump files into one tar.gz
archive, and upload the archive over FTP.

Every external effect (filesystem calls, the mysqldump subprocess, the FTP
client, the clock) is modelled by an outcome oracle `World`; the program's
own control flow is translated function by function from main.go.
-/

/-- Configuration record decoded from config.json (struct Config, main.go:18-28). -/
structure Config where
  mySQLHost : String
  mySQLUser : String
  mySQLPassword : String
  databases : List String
  backupDirectory : String
  ftpHost : String
  ftpUser : String
  ftpPassword : String
  ftpDirectory : String
deriving DecidableEq

/-- A wall-clock instant at seconds resolution, the granularity of the
layout string "20060102_150405" that main.go:159 formats time.Now() with. -/
@[ext]
structure DateTime where
  year : Nat
  month : Nat
  day : Nat
  hour : Nat
  minute : Nat
  second : Nat
deriving DecidableEq

/-- Field ranges under which the zero-padded fixed-width rendering below is
exactly Go's; real calendar values are well inside them. -/
def DateTime.Valid (t : DateTime) : Prop :=
  t.year < 10000 ∧ t.month < 100 ∧ t.day < 100 ∧ t.hour < 100 ∧ t.minute < 100 ∧ t.second < 100

/-- Go's t.Format("20060102_150405"): four year digits, then zero-padded
two-digit month, day, an underscore, hour, minute, second. -/
def formatTimestamp (t : DateTime) : String :=
  String.mk [Nat.digitChar (t.year / 1000), Nat.digitChar (t.year / 100 % 10),
    Nat.digitChar (t.year / 10 % 10), Nat.digitChar (t.year % 10),
    Nat.digitChar (t.month / 10), Nat.digitChar (t.month % 10),
    Nat.digitChar (t.day / 10), Nat.digitChar (t.day % 10), '_',
    Nat.digitChar (t.hour / 10), Nat.digitChar (t.hour % 10),
    Nat.digitChar (t.minute / 10), Nat.digitChar (t.minute % 10),
    Nat.digitChar (t.second / 10), Nat.digitChar (t.second % 10)]

/-- filepath.Join of a directory and a file name. The path.Clean step is
omitted: on the names this program joins (no "." or ".." components, no
doubled separators) Clean is the identity. -/
def filepathJoin (dir name : String) : String :=
  if dir = "" then name else String.mk (dir.data ++ '/' :: name.data)

/-- filepath.Base: strip trailing separators, then keep everything after the
last separator; "." for the empty path, "/" for all-separator paths. -/
def filepathBase (p : String) : String :=
  if p = "" then "."
  else
    let r := p.data.reverse.dropWhile (fun c => c = '/')
    if r = [] then "/"
    else String.mk ((r.takeWhile (fun c => c ≠ '/')).reverse)

/-- needle occurs at the head of hay. -/
def leadsList : List Char → List Char → Bool
  | [], _ => true
  | _ :: _, [] => false
  | a :: as, b :: bs => a == b && leadsList as bs

/-- needle occurs contiguously somewhere in hay. -/
def insideList (needle : List Char) : List Char → Bool
  | [] => leadsList needle []
  | b :: bs => leadsList needle (b :: bs) || insideList needle bs

/-- needle is a contiguous substring of hay (used to state that an error
message identifies a file). -/
def insideStr (needle hay : String) : Bool :=
  insideList needle.data hay.data

/-- One tar entry of the produced archive: header name, stat size, bytes. -/
structure Entry where
  name : String
  size : Nat
  content : List Nat
deriving DecidableEq

/-- Outcome oracle for every external effect the program performs. Functions
are keyed by the path (filesystem calls) or database name (mysqldump) they
are applied to; the run itself is deterministic given the oracle. -/
structure World where
  loadConfigResult : Except String Config
  mkdirAllOk : Bool
  mkdirErr : String
  createOk : String → Bool
  createErr : String → String
  dumpRunOk : String → Bool
  runErr : String → String
  statOk : String → Bool
  statErr : String → String
  headerOk : String → Bool
  headerErr : String → String
  writeHeadOk : String → Bool
  writeHeadErr : String → String
  openOk : String → Bool
  openErr : String → String
  copyOk : String → Bool
  copyErr : String → String
  fileContents : String → List Nat
  ftpDialOk : Bool
  dialErr : String
  ftpLoginOk : Bool
  loginErr : String
  ftpStorOk : Bool
  storErr : String
  now : DateTime

/-- Argument list main.go:43-49 passes to the mysqldump subprocess. -/
def mysqldumpArgs (config : Config) (database : String) : List String :=
  ["-h", config.mySQLHost, "-u", config.mySQLUser, "-p" ++ config.mySQLPassword, database]

/-- backupDatabase (main.go:42-62): os.Create the output file, run mysqldump
with its stdout redirected into it. Second component: whether the output
file now exists on disk (os.Create succeeded; the program never deletes it,
so a failed mysqldump leaves the created file behind). -/
def backupDatabase (w : World) (config : Config) (database outputFile : String) :
    Except String Unit × Bool :=
  if w.createOk outputFile = false then
    (.error ("failed to create database copy file: " ++ w.createErr outputFile), false)
  else if w.dumpRunOk database = false then
    (.error ("failed to execute mysqldump: " ++ w.runErr database), true)
  else
    (.ok (), true)

/-- Path of one database's dump file (main.go:149). -/
def dumpPath (config : Config) (db : String) : String :=
  filepathJoin config.backupDirectory (db ++ ".sql")

/-- backupDatabase succeeds for this database in this world. -/
def dumpOk (w : World) (config : Config) (db : String) : Bool :=
  w.createOk (dumpPath config db) && w.dumpRunOk db

/-- Accumulated state of the per-database loop: collected dump paths, log
lines of failures, files created on disk, databases attempted. -/
structure DumpState where
  files : List String
  logs : List String
  disk : List String
  attempts : List String
deriving DecidableEq

/-- The per-database loop of main (main.go:147-157): attempt every database
in order; on failure log "failed to backup database %s: %v" and continue;
on success collect the dump path. -/
def dumpLoop (w : World) (config : Config) : List String → DumpState
  | [] => ⟨[], [], [], []⟩
  | db :: rest =>
    let path := dumpPath config db
    let r := backupDatabase w config db path
    let st := dumpLoop w config rest
    match r.1 with
    | .error e =>
      ⟨st.files, ("failed to backup database " ++ db ++ ": " ++ e) :: st.logs,
        (if r.2 then path :: st.disk else st.disk), db :: st.attempts⟩
    | .ok _ =>
      ⟨path :: st.files, st.logs,
        (if r.2 then path :: st.disk else st.disk), db :: st.attempts⟩

/-- Tar entry written for one input file (main.go:78-103): header built from
os.Stat with Name overwritten to filepath.Base, then the file's bytes are
streamed in with io.Copy. -/
def mkEntry (w : World) (file : String) : Entry :=
  { name := filepathBase file, size := (w.fileContents file).length,
    content := w.fileContents file }

/-- The per-file loop of archiveFiles (main.go:77-104): stat, build header,
write header, open, copy; the first failure aborts the whole loop with the
corresponding wrapped error. -/
def archiveLoop (w : World) : List String → Except String (List Entry)
  | [] => .ok []
  | file :: rest =>
    if w.statOk file = false then
      .error ("failed to get file information " ++ file ++ ": " ++ w.statErr file)
    else if w.headerOk file = false then
      .error ("failed to create file header " ++ file ++ ": " ++ w.headerErr file)
    else if w.writeHeadOk file = false then
      .error ("failed to write file header into archive: " ++ w.writeHeadErr file)
    else if w.openOk file = false then
      .error ("failed to open file " ++ file ++ ": " ++ w.openErr file)
    else if w.copyOk file = false then
      .error ("failed to write file " ++ file ++ " into archive: " ++ w.copyErr file)
    else
      match archiveLoop w rest with
      | .error e => .error e
      | .ok es => .ok (mkEntry w file :: es)

/-- archiveFiles (main.go:64-107): os.Create the archive file, layer the
gzip and tar writers on it, then run the per-file loop. Second component:
whether the archive file now exists on disk (the program never deletes it,
even when the loop fails midway). -/
def archiveFiles (w : World) (files : List String) (archivePath : String) :
    Except String (List Entry) × Bool :=
  if w.createOk archivePath = false then
    (.error ("failed to create archive: " ++ w.createErr archivePath), false)
  else
    (archiveLoop w files, true)

/-- Reading the produced archive back. The tar and gzip codecs of the Go
standard library are modelled as entry-preserving, so unpacking returns each
entry's name and bytes in order. -/
def unpackArchive (entries : List Entry) : List (String × List Nat) :=
  entries.map (fun e => (e.name, e.content))

/-- Events of one uploadToFTP call, in execution order. -/
inductive FtpEvent where
  | dial (ok : Bool)
  | login (ok : Bool)
  | openLocal (ok : Bool)
  | closeLocal
  | stor (remotePath : String) (ok : Bool)
  | quit
deriving DecidableEq

/-- uploadToFTP (main.go:109-134): dial, login, open the local file, store
to ftpDirectory joined with the archive's base name. conn.Quit and
file.Close are deferred after their acquisitions succeed, so Go runs them
in reverse order at every later return point; the trace records each call. -/
def uploadToFTP (w : World) (config : Config) (localFile : String) :
    Except String Unit × List FtpEvent :=
  let remotePath := filepathJoin config.ftpDirectory (filepathBase localFile)
  if w.ftpDialOk = false then
    (.error ("failed to connect to ftp server: " ++ w.dialErr), [.dial false])
  else if w.ftpLoginOk = false then
    (.error ("failed to auth on ftp server: " ++ w.loginErr),
      [.dial true, .login false, .quit])
  else if w.openOk localFile = false then
    (.error ("failed to open local file: " ++ w.openErr localFile),
      [.dial true, .login true, .openLocal false, .quit])
  else if w.ftpStorOk = false then
    (.error ("failed to upload file: " ++ w.storErr),
      [.dial true, .login true, .openLocal true, .stor remotePath false, .closeLocal, .quit])
  else
    (.ok (), [.dial true, .login true, .openLocal true, .stor remotePath true, .closeLocal, .quit])

/-- Archive path of a run started at instant t (main.go:159). -/
def archivePathOf (config : Config) (t : DateTime) : String :=
  filepathJoin config.backupDirectory ("backup_" ++ formatTimestamp t ++ ".tar.gz")

/-- Observable outcome of one whole run. diskFiles lists every file the run
created (dump files, then the archive file); archiveCall records the
argument list and path archiveFiles was invoked with, if reached. -/
structure RunResult where
  exitCode : Nat
  fatalLog : Option String
  dumpLogs : List String
  attempts : List String
  backupFiles : List String
  diskFiles : List String
  archiveCall : Option (List String × String)
  archiveResult : Option (Except String (List Entry))
  ftpTrace : List FtpEvent

/-- Result of the dump loop over the whole configured database list. -/
def runState (w : World) (config : Config) : DumpState :=
  dumpLoop w config config.databases

/-- The archive stage of one run (main.go:159-161): archiveFiles over the
collected dump paths, at the timestamped archive path. -/
def runArchive (w : World) (config : Config) : Except String (List Entry) × Bool :=
  archiveFiles w (runState w config).files (archivePathOf config w.now)

/-- The upload stage of one run (main.go:167). -/
def runUpload (w : World) (config : Config) : Except String Unit × List FtpEvent :=
  uploadToFTP w config (archivePathOf config w.now)

/-- The tail of main after config load and directory creation succeeded
(main.go:147-173): dump loop, archive stage (fatal on failure), upload
stage (fatal on failure), then exit 0. log.Fatalf exits with code 1. -/
def mainStages (w : World) (config : Config) : RunResult :=
  match runArchive w config with
  | (.error e, created) =>
    { exitCode := 1, fatalLog := some ("failed to archive: " ++ e),
      dumpLogs := (runState w config).logs, attempts := (runState w config).attempts,
      backupFiles := (runState w config).files,
      diskFiles := (runState w config).disk ++
        (if created then [archivePathOf config w.now] else []),
      archiveCall := some ((runState w config).files, archivePathOf config w.now),
      archiveResult := some (.error e), ftpTrace := [] }
  | (.ok entries, created) =>
    match runUpload w config with
    | (.error e, tr) =>
      { exitCode := 1, fatalLog := some ("failed to upload: " ++ e),
        dumpLogs := (runState w config).logs, attempts := (runState w config).attempts,
        backupFiles := (runState w config).files,
        diskFiles := (runState w config).disk ++
          (if created then [archivePathOf config w.now] else []),
        archiveCall := some ((runState w config).files, archivePathOf config w.now),
        archiveResult := some (.ok entries), ftpTrace := tr }
    | (.ok _, tr) =>
      { exitCode := 0, fatalLog := none,
        dumpLogs := (runState w config).logs, attempts := (runState w config).attempts,
        backupFiles := (runState w config).files,
        diskFiles := (runState w config).disk ++
          (if created then [archivePathOf config w.now] else []),
        archiveCall := some ((runState w config).files, archivePathOf config w.now),
        archiveResult := some (.ok entries), ftpTrace := tr }

/-- main (main.go:136-173): loadConfig (fatal on failure), os.MkdirAll of
the backup directory (fatal on failure), then the remaining stages. -/
def mainRun (w : World) : RunResult :=
  match w.loadConfigResult with
  | .error e =>
    { exitCode := 1, fatalLog := some ("failed to load config: " ++ e), dumpLogs := [],
      attempts := [], backupFiles := [], diskFiles := [], archiveCall := none,
      archiveResult := none, ftpTrace := [] }
  | .ok config =>
    if w.mkdirAllOk = false then
      { exitCode := 1, fatalLog := some ("failed to create directory for backups: " ++ w.mkdirErr),
        dumpLogs := [], attempts := [], backupFiles := [], diskFiles := [], archiveCall := none,
        archiveResult := none, ftpTrace := [] }
    else
      mainStages w config

/-- The run succeeded through every fatal-on-failure stage: config loaded,
backup directory created, archive written, upload completed. -/
def runFullSuccess (w : World) : Prop :=
  match w.loadConfigResult with
  | .error _ => False
  | .ok config =>
    w.mkdirAllOk = true ∧
    (∃ entries, (runArchive w config).1 = .ok entries) ∧
    (runUpload w config).1 = .ok ()

/-- The error backupDatabase returns for this database when it fails. -/
def dumpErrMsg (w : World) (config : Config) (db : String) : String :=
  if w.createOk (dumpPath config db) = false then
    "failed to create database copy file: " ++ w.createErr (dumpPath config db)
  else
    "failed to execute mysqldump: " ++ w.runErr db

/-- All five per-file operations of the archive loop succeed for this file. -/
def archOk (w : World) (f : String) : Bool :=
  w.statOk f && w.headerOk f && w.writeHeadOk f && w.openOk f && w.copyOk f

/-- Concrete configuration used to instantiate the theorems. -/
def cfgW : Config :=
  { mySQLHost := "db.internal", mySQLUser := "root", mySQLPassword := "pw",
    databases := ["app", "billing"], backupDirectory := "backups",
    ftpHost := "ftp.internal:21", ftpUser := "ftp", ftpPassword := "pw2",
    ftpDirectory := "remote" }

/-- Concrete run instant. -/
def tW : DateTime := ⟨2024, 5, 17, 13, 45, 9⟩

/-- Concrete run instant one second later. -/
def tW2 : DateTime := ⟨2024, 5, 17, 13, 45, 10⟩

/-- Concrete world: everything succeeds except the mysqldump run for
"billing". -/
def wBase : World :=
  { loadConfigResult := .ok cfgW, mkdirAllOk := true, mkdirErr := "permission denied",
    createOk := fun _ => true, createErr := fun _ => "permission denied",
    dumpRunOk := fun db => db == "app", runErr := fun _ => "exit status 2",
    statOk := fun _ => true, statErr := fun _ => "no such file",
    headerOk := fun _ => true, headerErr := fun _ => "unsupported type",
    writeHeadOk := fun _ => true, writeHeadErr := fun _ => "disk full",
    openOk := fun _ => true, openErr := fun _ => "permission denied",
    copyOk := fun _ => true, copyErr := fun _ => "short write",
    fileContents := fun _ => [45, 45, 10], ftpDialOk := true, dialErr := "refused",
    ftpLoginOk := true, loginErr := "bad credentials", ftpStorOk := true,
    storErr := "quota exceeded", now := tW }

/-- wBase but the tar header write fails for every file. -/
def wHeadFail : World :=
  { wBase with writeHeadOk := fun _ => false }

/-- wBase but os.Stat fails for every file. -/
def wStatFail : World :=
  { wBase with statOk := fun _ => false }

/-- wBase but every mysqldump run fails. -/
def wAllDumpFail : World :=
  { wBase with dumpRunOk := fun _ => false }

/-- wBase but os.MkdirAll fails. -/
def wMkdirFail : World :=
  { wBase with mkdirAllOk := false }

/-- wBase but the FTP store command fails. -/
def wStorFail : World :=
  { wBase with ftpStorOk := false }

/-- wBase one second later. -/
def wLater : World :=
  { wBase with now := tW2 }

theorem data_mk (l : List Char) : (String.mk l).data = l := rfl

theorem digitChar_inj : ∀ a < 10, ∀ b < 10, Nat.digitChar a = Nat.digitChar b → a = b := by
  decide

theorem formatTimestamp_inj (t1 t2 : DateTime) (h1 : t1.Valid) (h2 : t2.Valid)
    (h : formatTimestamp t1 = formatTimestamp t2) : t1 = t2 := by
  obtain ⟨hy1, hmo1, hd1, hh1, hmi1, hs1⟩ := h1
  obtain ⟨hy2, hmo2, hd2, hh2, hmi2, hs2⟩ := h2
  have hd : (formatTimestamp t1).data = (formatTimestamp t2).data := by rw [h]
  simp only [formatTimestamp, data_mk, List.cons.injEq, and_true] at hd
  obtain ⟨e1, e2, e3, e4, e5, e6, e7, e8, -, e9, e10, e11, e12, e13, e14⟩ := hd
  have g1 := digitChar_inj _ (by omega) _ (by omega) e1
  have g2 := digitChar_inj _ (by omega) _ (by omega) e2
  have g3 := digitChar_inj _ (by omega) _ (by omega) e3
  have g4 := digitChar_inj _ (by omega) _ (by omega) e4
  have g5 := digitChar_inj _ (by omega) _ (by omega) e5
  have g6 := digitChar_inj _ (by omega) _ (by omega) e6
  have g7 := digitChar_inj _ (by omega) _ (by omega) e7
  have g8 := digitChar_inj _ (by omega) _ (by omega) e8
  have g9 := digitChar_inj _ (by omega) _ (by omega) e9
  have g10 := digitChar_inj _ (by omega) _ (by omega) e10
  have g11 := digitChar_inj _ (by omega) _ (by omega) e11
  have g12 := digitChar_inj _ (by omega) _ (by omega) e12
  have g13 := digitChar_inj _ (by omega) _ (by omega) e13
  have g14 := digitChar_inj _ (by omega) _ (by omega) e14
  ext <;> omega

theorem filepathJoin_inj (d s1 s2 : String) (h : filepathJoin d s1 = filepathJoin d s2) :
    s1 = s2 := by
  unfold filepathJoin at h
  by_cases hd : d = ""
  · simpa [hd] using h
  · rw [if_neg hd, if_neg hd] at h
    have hdata := congrArg String.data h
    simp only [data_mk] at hdata
    have h2 := List.append_cancel_left hdata
    simp only [List.cons.injEq, true_and] at h2
    exact String.ext h2

theorem filepathJoin_data (d s : String) (hd : d ≠ "") :
    (filepathJoin d s).data = d.data ++ '/' :: s.data := by
  simp [filepathJoin, hd]

theorem dropWhile_no (p : Char → Bool) (m : List Char) (h : ∀ c ∈ m, p c = false) :
    m.dropWhile p = m := by
  cases m with
  | nil => rfl
  | cons a as => simp [List.dropWhile_cons, h a (by simp)]

theorem takeWhile_all (p : Char → Bool) (m : List Char) (h : ∀ c ∈ m, p c = true) :
    m.takeWhile p = m := by
  induction m with
  | nil => rfl
  | cons a as ih =>
    rw [List.takeWhile_cons, if_pos (h a (List.mem_cons_self a as))]
    exact congrArg (List.cons a) (ih (fun c hc => h c (List.mem_cons_of_mem a hc)))

theorem takeWhile_append_stop (p : Char → Bool) (m n : List Char) (c : Char)
    (hm : ∀ x ∈ m, p x = true) (hc : p c = false) :
    ((m ++ c :: n).takeWhile p) = m := by
  induction m with
  | nil => simp [List.takeWhile_cons, hc]
  | cons a as ih =>
    rw [List.cons_append, List.takeWhile_cons, if_pos (hm a (List.mem_cons_self a as))]
    exact congrArg (List.cons a) (ih (fun x hx => hm x (List.mem_cons_of_mem a hx)))

theorem string_eta (s : String) : String.mk s.data = s := rfl

theorem filepathBase_join (d s : String) (hne : s.data ≠ []) (hsep : '/' ∉ s.data) :
    filepathBase (filepathJoin d s) = s := by
  have hsrev : ∀ c ∈ s.data.reverse, (c = '/' : Bool) = false := by
    intro c hc
    simp only [List.mem_reverse] at hc
    simp only [decide_eq_false_iff_not]
    exact fun he => hsep (he ▸ hc)
  by_cases hd : d = ""
  · have hs : s ≠ "" := fun he => hne (by rw [he])
    rw [filepathJoin, if_pos hd, filepathBase, if_neg hs]
    have hdrop : s.data.reverse.dropWhile (fun c => c = '/') = s.data.reverse :=
      dropWhile_no _ _ hsrev
    rw [hdrop]
    have hrev : s.data.reverse ≠ [] := by simpa using hne
    rw [if_neg hrev]
    have htake : s.data.reverse.takeWhile (fun c => c ≠ '/') = s.data.reverse := by
      refine takeWhile_all _ _ (fun c hc => ?_)
      have := hsrev c hc
      simpa using this
    rw [htake, List.reverse_reverse, string_eta]
  · have hdata : (filepathJoin d s).data = d.data ++ '/' :: s.data := filepathJoin_data d s hd
    have hpne : filepathJoin d s ≠ "" := by
      intro he
      have : (filepathJoin d s).data = [] := by rw [he]
      rw [hdata] at this
      simp at this
    rw [filepathBase, if_neg hpne, hdata]
    have hrev : (d.data ++ '/' :: s.data).reverse = s.data.reverse ++ '/' :: d.data.reverse := by
      simp
    rw [hrev]
    obtain ⟨c, cs, hcs⟩ : ∃ c cs, s.data.reverse = c :: cs := by
      cases hr : s.data.reverse with
      | nil => exact absurd (by simpa using hr) hne
      | cons c cs => exact ⟨c, cs, rfl⟩
    have hcfalse : (c = '/' : Bool) = false := hsrev c (by rw [hcs]; simp)
    have hdrop : (s.data.reverse ++ '/' :: d.data.reverse).dropWhile (fun c => c = '/') =
        s.data.reverse ++ '/' :: d.data.reverse := by
      rw [hcs, List.cons_append, List.dropWhile_cons, hcfalse]
      simp
    rw [hdrop]
    have hrne : s.data.reverse ++ '/' :: d.data.reverse ≠ [] := by
      rw [hcs]; simp
    rw [if_neg hrne]
    have htake : (s.data.reverse ++ '/' :: d.data.reverse).takeWhile (fun c => c ≠ '/') =
        s.data.reverse := by
      refine takeWhile_append_stop _ _ _ _ (fun x hx => ?_) (by simp)
      have := hsrev x hx
      simpa using this
    rw [htake, List.reverse_reverse, string_eta]

theorem dumpPath_inj (config : Config) (a b : String)
    (h : dumpPath config a = dumpPath config b) : a = b := by
  have h2 := filepathJoin_inj _ _ _ h
  have h3 := congrArg String.data h2
  rw [String.data_append, String.data_append] at h3
  exact String.ext (List.append_cancel_right h3)

theorem leadsList_append (n y : List Char) : leadsList n (n ++ y) = true := by
  induction n with
  | nil => cases y <;> rfl
  | cons a as ih => simp [leadsList, ih]

theorem insideList_sandwich (x n y : List Char) : insideList n (x ++ (n ++ y)) = true := by
  induction x with
  | nil =>
    cases hn : n ++ y with
    | nil =>
      obtain ⟨hn1, -⟩ := List.append_eq_nil.mp hn
      simp [insideList, hn, hn1, leadsList]
    | cons b bs => simp [insideList, ← hn, leadsList_append]
  | cons a as ih => simp [insideList, ih]

theorem insideStr_sandwich (x n y : String) : insideStr n (x ++ n ++ y) = true := by
  have : (x ++ n ++ y).data = x.data ++ (n.data ++ y.data) := by
    simp [String.data_append]
  rw [insideStr, this]
  exact insideList_sandwich _ _ _

theorem backupDatabase_fst (w : World) (config : Config) (db : String) :
    (backupDatabase w config db (dumpPath config db)).1 =
      (if dumpOk w config db then .ok () else .error (dumpErrMsg w config db)) := by
  rw [backupDatabase, dumpOk, dumpErrMsg]
  cases hc : w.createOk (dumpPath config db) <;> cases hr : w.dumpRunOk db <;> simp

theorem backupDatabase_snd (w : World) (config : Config) (db : String) :
    (backupDatabase w config db (dumpPath config db)).2 = w.createOk (dumpPath config db) := by
  rw [backupDatabase]
  cases hc : w.createOk (dumpPath config db) <;> cases hr : w.dumpRunOk db <;> simp

theorem dumpLoop_attempts (w : World) (config : Config) (dbs : List String) :
    (dumpLoop w config dbs).attempts = dbs := by
  induction dbs with
  | nil => rfl
  | cons db rest ih =>
    rw [dumpLoop]
    cases hb : (backupDatabase w config db (dumpPath config db)).1 <;> simp [hb, ih]

theorem dumpLoop_files (w : World) (config : Config) (dbs : List String) :
    (dumpLoop w config dbs).files =
      (dbs.filter (fun db => dumpOk w config db)).map (dumpPath config) := by
  induction dbs with
  | nil => rfl
  | cons db rest ih =>
    rw [dumpLoop, List.filter_cons]
    have hb := backupDatabase_fst w config db
    cases hd : dumpOk w config db
    · rw [hd] at hb
      simp at hb
      simp [hb, ih, hd]
    · rw [hd] at hb
      simp at hb
      simp [hb, ih, hd]

theorem dumpLoop_logs (w : World) (config : Config) (dbs : List String) :
    (dumpLoop w config dbs).logs =
      (dbs.filter (fun db => !dumpOk w config db)).map
        (fun db => "failed to backup database " ++ db ++ ": " ++ dumpErrMsg w config db) := by
  induction dbs with
  | nil => rfl
  | cons db rest ih =>
    rw [dumpLoop, List.filter_cons]
    have hb := backupDatabase_fst w config db
    cases hd : dumpOk w config db
    · rw [hd] at hb
      simp at hb
      simp [hb, ih, hd]
    · rw [hd] at hb
      simp at hb
      simp [hb, ih, hd]

theorem dumpLoop_disk (w : World) (config : Config) (dbs : List String) :
    (dumpLoop w config dbs).disk =
      (dbs.filter (fun db => w.createOk (dumpPath config db))).map (dumpPath config) := by
  induction dbs with
  | nil => rfl
  | cons db rest ih =>
    rw [dumpLoop, List.filter_cons]
    have hb := backupDatabase_fst w config db
    have hb2 := backupDatabase_snd w config db
    cases hd : dumpOk w config db
    · rw [hd] at hb
      simp at hb
      cases hc : w.createOk (dumpPath config db) <;> rw [hc] at hb2 <;> simp [hb, hb2, ih, hc]
    · rw [hd] at hb
      simp at hb
      have hc : w.createOk (dumpPath config db) = true := by
        have := hd
        rw [dumpOk, Bool.and_eq_true] at this
        exact this.1
      rw [hc] at hb2
      simp [hb, hb2, ih, hc]

theorem str_append_assoc (a b c : String) : (a ++ b) ++ c = a ++ (b ++ c) :=
  String.ext (by simp [String.data_append])

theorem archiveLoop_ok_inv (w : World) (files : List String) (entries : List Entry)
    (h : archiveLoop w files = .ok entries) : entries = files.map (mkEntry w) := by
  induction files generalizing entries with
  | nil =>
    rw [archiveLoop] at h
    simp only [Except.ok.injEq] at h
    simp [← h]
  | cons f rest ih =>
    rw [archiveLoop] at h
    by_cases h1 : w.statOk f = false
    · rw [if_pos h1] at h; exact absurd h (by simp)
    rw [if_neg h1] at h
    by_cases h2 : w.headerOk f = false
    · rw [if_pos h2] at h; exact absurd h (by simp)
    rw [if_neg h2] at h
    by_cases h3 : w.writeHeadOk f = false
    · rw [if_pos h3] at h; exact absurd h (by simp)
    rw [if_neg h3] at h
    by_cases h4 : w.openOk f = false
    · rw [if_pos h4] at h; exact absurd h (by simp)
    rw [if_neg h4] at h
    by_cases h5 : w.copyOk f = false
    · rw [if_pos h5] at h; exact absurd h (by simp)
    rw [if_neg h5] at h
    cases hrec : archiveLoop w rest with
    | error e => rw [hrec] at h; exact absurd h (by simp)
    | ok es =>
      rw [hrec] at h
      simp only [Except.ok.injEq] at h
      rw [← h, List.map_cons, ih es hrec]

theorem archiveLoop_all_ok (w : World) (files : List String)
    (h : ∀ f ∈ files, archOk w f = true) :
    archiveLoop w files = .ok (files.map (mkEntry w)) := by
  induction files with
  | nil => rfl
  | cons f rest ih =>
    have hf := h f (List.mem_cons_self f rest)
    rw [archOk] at hf
    simp only [Bool.and_eq_true] at hf
    obtain ⟨⟨⟨⟨hs, hh⟩, hw⟩, ho⟩, hc⟩ := hf
    rw [archiveLoop, if_neg (by simp [hs]), if_neg (by simp [hh]), if_neg (by simp [hw]),
      if_neg (by simp [ho]), if_neg (by simp [hc]),
      ih (fun x hx => h x (List.mem_cons_of_mem f hx))]
    rfl

theorem archiveLoop_error_inv (w : World) (files : List String) (e : String)
    (h : archiveLoop w files = .error e) :
    ∃ f ∈ files,
      (e = "failed to get file information " ++ f ++ ": " ++ w.statErr f ∧
        insideStr f e = true) ∨
      (e = "failed to create file header " ++ f ++ ": " ++ w.headerErr f ∧
        insideStr f e = true) ∨
      (e = "failed to write file header into archive: " ++ w.writeHeadErr f) ∨
      (e = "failed to open file " ++ f ++ ": " ++ w.openErr f ∧ insideStr f e = true) ∨
      (e = "failed to write file " ++ f ++ " into archive: " ++ w.copyErr f ∧
        insideStr f e = true) := by
  induction files generalizing e with
  | nil => rw [archiveLoop] at h; exact absurd h (by simp)
  | cons f rest ih =>
    rw [archiveLoop] at h
    by_cases h1 : w.statOk f = false
    · rw [if_pos h1] at h
      simp only [Except.error.injEq] at h
      refine ⟨f, List.mem_cons_self f rest, Or.inl ⟨h.symm, ?_⟩⟩
      rw [← h, str_append_assoc]
      exact insideStr_sandwich "failed to get file information " f (": " ++ w.statErr f)
    rw [if_neg h1] at h
    by_cases h2 : w.headerOk f = false
    · rw [if_pos h2] at h
      simp only [Except.error.injEq] at h
      refine ⟨f, List.mem_cons_self f rest, Or.inr (Or.inl ⟨h.symm, ?_⟩)⟩
      rw [← h, str_append_assoc]
      exact insideStr_sandwich "failed to create file header " f (": " ++ w.headerErr f)
    rw [if_neg h2] at h
    by_cases h3 : w.writeHeadOk f = false
    · rw [if_pos h3] at h
      simp only [Except.error.injEq] at h
      exact ⟨f, List.mem_cons_self f rest, Or.inr (Or.inr (Or.inl h.symm))⟩
    rw [if_neg h3] at h
    by_cases h4 : w.openOk f = false
    · rw [if_pos h4] at h
      simp only [Except.error.injEq] at h
      refine ⟨f, List.mem_cons_self f rest, Or.inr (Or.inr (Or.inr (Or.inl ⟨h.symm, ?_⟩)))⟩
      rw [← h, str_append_assoc]
      exact insideStr_sandwich "failed to open file " f (": " ++ w.openErr f)
    rw [if_neg h4] at h
    by_cases h5 : w.copyOk f = false
    · rw [if_pos h5] at h
      simp only [Except.error.injEq] at h
      refine ⟨f, List.mem_cons_self f rest,
        Or.inr (Or.inr (Or.inr (Or.inr ⟨h.symm, ?_⟩)))⟩
      rw [← h, str_append_assoc]
      exact insideStr_sandwich "failed to write file " f (" into archive: " ++ w.copyErr f)
    rw [if_neg h5] at h
    cases hrec : archiveLoop w rest with
    | error e2 =>
      rw [hrec] at h
      simp only [Except.error.injEq] at h
      obtain ⟨g, hg, hcase⟩ := ih e2 hrec
      exact ⟨g, List.mem_cons_of_mem f hg, h ▸ hcase⟩
    | ok es => rw [hrec] at h; exact absurd h (by simp)

theorem archiveFiles_snd (w : World) (files : List String) (archivePath : String) :
    (archiveFiles w files archivePath).2 = w.createOk archivePath := by
  rw [archiveFiles]
  cases hc : w.createOk archivePath <;> simp [hc]

theorem mainStages_fields (w : World) (config : Config) :
    (mainStages w config).dumpLogs = (runState w config).logs ∧
    (mainStages w config).attempts = (runState w config).attempts ∧
    (mainStages w config).backupFiles = (runState w config).files ∧
    (mainStages w config).diskFiles = (runState w config).disk ++
      (if (runArchive w config).2 then [archivePathOf config w.now] else []) ∧
    (mainStages w config).archiveCall =
      some ((runState w config).files, archivePathOf config w.now) ∧
    (mainStages w config).archiveResult = some (runArchive w config).1 := by
  rcases ha : runArchive w config with ⟨ae | aent, created⟩
  · simp [mainStages, ha]
  · rcases hu : runUpload w config with ⟨ue | uu, tr⟩
    · simp [mainStages, ha, hu]
    · simp [mainStages, ha, hu]

theorem mainRun_eq_stages (w : World) (config : Config)
    (hl : w.loadConfigResult = .ok config) (hm : w.mkdirAllOk = true) :
    mainRun w = mainStages w config := by
  simp [mainRun, hl, hm]

theorem append_sql_inj (a b : String) (h : a ++ ".sql" = b ++ ".sql") : a = b := by
  have h3 := congrArg String.data h
  rw [String.data_append, String.data_append] at h3
  exact String.ext (List.append_cancel_right h3)

theorem sql_name_sep (db : String) (hsep : '/' ∉ db.data) : '/' ∉ (db ++ ".sql").data := by
  rw [String.data_append]
  intro hmem
  rcases List.mem_append.mp hmem with h | h
  · exact hsep h
  · revert h
    decide

theorem sql_name_ne (db : String) : (db ++ ".sql").data ≠ [] := by
  rw [String.data_append]
  intro h
  have := congrArg List.length h
  simp at this

theorem dumpPath_base (config : Config) (db : String) (hsep : '/' ∉ db.data) :
    filepathBase (dumpPath config db) = db ++ ".sql" :=
  filepathBase_join config.backupDirectory (db ++ ".sql") (sql_name_ne db) (sql_name_sep db hsep)

/-- C3: the process exits 0 iff the run reaches full success through the
upload stage; every fatal stage failure (config load, directory creation,
archive, upload) exits non-zero, and non-zero exit coincides with a logged
fatal message. runFullSuccess mentions no per-database dump outcome, so dump
failures alone never change the exit code once archive and upload succeed. -/
theorem C3_exit_code (w : World) :
    ((mainRun w).exitCode = 0 ↔ runFullSuccess w) ∧
    ((mainRun w).exitCode = 0 ↔ (mainRun w).fatalLog = none) := by
  rcases hl : w.loadConfigResult with e | config
  · simp [mainRun, runFullSuccess, hl]
  · cases hm : w.mkdirAllOk
    · simp [mainRun, runFullSuccess, hl, hm]
    · rcases ha : runArchive w config with ⟨ae | aent, created⟩
      · simp [mainRun, mainStages, runFullSuccess, hl, hm, ha]
      · rcases hu : runUpload w config with ⟨ue | ⟨⟩, tr⟩
        · simp [mainRun, mainStages, runFullSuccess, hl, hm, ha, hu]
        · simp [mainRun, mainStages, runFullSuccess, hl, hm, ha, hu]

/-- C9: when creation of the backup directory fails, the process exits
non-zero with the corresponding fatal log before any dump is attempted: no
database is attempted, no file is created, and archiveFiles is never
invoked. -/
theorem C9_mkdir_failure (w : World) (config : Config)
    (hl : w.loadConfigResult = .ok config) (hm : w.mkdirAllOk = false) :
    (mainRun w).exitCode ≠ 0 ∧
    (mainRun w).fatalLog = some ("failed to create directory for backups: " ++ w.mkdirErr) ∧
    (mainRun w).attempts = [] ∧ (mainRun w).diskFiles = [] ∧
    (mainRun w).archiveCall = none := by
  simp [mainRun, hl, hm]

theorem C9_mkdir_failure_witness :
    wMkdirFail.loadConfigResult = .ok cfgW ∧ wMkdirFail.mkdirAllOk = false ∧
    ((mainRun wMkdirFail).exitCode ≠ 0 ∧
      (mainRun wMkdirFail).fatalLog =
        some ("failed to create directory for backups: " ++ wMkdirFail.mkdirErr) ∧
      (mainRun wMkdirFail).attempts = [] ∧ (mainRun wMkdirFail).diskFiles = [] ∧
      (mainRun wMkdirFail).archiveCall = none) :=
  ⟨rfl, rfl, C9_mkdir_failure wMkdirFail cfgW rfl rfl⟩

/-- C4: whenever the FTP control connection is successfully opened, the
control session is closed exactly once before uploadToFTP returns, on every
path (login, local open, store success or failure): the trace contains
exactly one Quit call and ends with it. -/
theorem C4_ftp_quit_once (w : World) (config : Config) (localFile : String)
    (hdial : w.ftpDialOk = true) :
    ((uploadToFTP w config localFile).2.count .quit = 1) ∧
    (∃ pre, (uploadToFTP w config localFile).2 = pre ++ [.quit]) := by
  cases hlog : w.ftpLoginOk
  · refine ⟨?_, ⟨[.dial true, .login false], ?_⟩⟩ <;>
      simp [uploadToFTP, hdial, hlog, List.count_cons]
  · cases hop : w.openOk localFile
    · refine ⟨?_, ⟨[.dial true, .login true, .openLocal false], ?_⟩⟩ <;>
        simp [uploadToFTP, hdial, hlog, hop, List.count_cons]
    · cases hst : w.ftpStorOk
      · refine ⟨?_, ⟨[.dial true, .login true, .openLocal true,
          .stor (filepathJoin config.ftpDirectory (filepathBase localFile)) false,
          .closeLocal], ?_⟩⟩ <;>
          simp [uploadToFTP, hdial, hlog, hop, hst, List.count_cons]
      · refine ⟨?_, ⟨[.dial true, .login true, .openLocal true,
          .stor (filepathJoin config.ftpDirectory (filepathBase localFile)) true,
          .closeLocal], ?_⟩⟩ <;>
          simp [uploadToFTP, hdial, hlog, hop, hst, List.count_cons]

theorem C4_ftp_quit_once_witness :
    wStorFail.ftpDialOk = true ∧
    (((uploadToFTP wStorFail cfgW "backups/backup_x.tar.gz").2.count .quit = 1) ∧
      (∃ pre, (uploadToFTP wStorFail cfgW "backups/backup_x.tar.gz").2 = pre ++ [.quit])) :=
  ⟨rfl, C4_ftp_quit_once wStorFail cfgW "backups/backup_x.tar.gz" rfl⟩

/-- C6: when every configured database's dump fails, the archive stage is
still invoked on the empty path list and (provided the archive file itself
can be created) succeeds, producing an archive with zero entries. -/
theorem C6_empty_archive (w : World) (config : Config)
    (hl : w.loadConfigResult = .ok config) (hm : w.mkdirAllOk = true)
    (hall : ∀ db ∈ config.databases, dumpOk w config db = false)
    (hcr : w.createOk (archivePathOf config w.now) = true) :
    (mainRun w).archiveCall = some ([], archivePathOf config w.now) ∧
    (mainRun w).archiveResult = some (.ok []) := by
  have hfiles : (runState w config).files = [] := by
    rw [runState, dumpLoop_files]
    have hnil : config.databases.filter (fun db => dumpOk w config db) = [] := by
      refine List.filter_eq_nil_iff.mpr (fun a ha => ?_)
      simp [hall a ha]
    rw [hnil]
    rfl
  have harch : runArchive w config = (.ok [], true) := by
    rw [runArchive, hfiles, archiveFiles, if_neg (by simp [hcr])]
    rfl
  obtain ⟨-, -, -, -, h5, h6⟩ := mainStages_fields w config
  rw [mainRun_eq_stages w config hl hm, h5, h6, hfiles, harch]
  exact ⟨rfl, rfl⟩

theorem C6_empty_archive_witness :
    wAllDumpFail.loadConfigResult = .ok cfgW ∧ wAllDumpFail.mkdirAllOk = true ∧
    (∀ db ∈ cfgW.databases, dumpOk wAllDumpFail cfgW db = false) ∧
    wAllDumpFail.createOk (archivePathOf cfgW wAllDumpFail.now) = true ∧
    ((mainRun wAllDumpFail).archiveCall = some ([], archivePathOf cfgW wAllDumpFail.now) ∧
      (mainRun wAllDumpFail).archiveResult = some (.ok [])) :=
  ⟨rfl, rfl, by decide, rfl,
    C6_empty_archive wAllDumpFail cfgW rfl rfl (by decide) rfl⟩

theorem archiveResult_ok_inv (w : World) (config : Config) (entries : List Entry)
    (hl : w.loadConfigResult = .ok config) (hm : w.mkdirAllOk = true)
    (ha : (mainRun w).archiveResult = some (.ok entries)) :
    entries = ((config.databases.filter (fun db => dumpOk w config db)).map
      (dumpPath config)).map (mkEntry w) := by
  obtain ⟨-, -, -, -, -, h6⟩ := mainStages_fields w config
  rw [mainRun_eq_stages w config hl hm, h6] at ha
  have ha2 := Option.some.inj ha
  rw [runArchive] at ha2
  by_cases hcr : w.createOk (archivePathOf config w.now) = false
  · rw [archiveFiles, if_pos hcr] at ha2
    exact absurd ha2 (by simp)
  · rw [archiveFiles, if_neg hcr] at ha2
    have hent := archiveLoop_ok_inv w _ entries ha2
    rw [runState, dumpLoop_files] at hent
    exact hent

/-- C1: when the run's archive succeeds, it contains exactly M entries,
M being the number of configured databases whose dump succeeded, one entry
per such database, named with the database name plus ".sql" and holding no
directory separator. Database names are assumed free of the path separator,
which is true of every valid MySQL database name. -/
theorem C1_archive_entries (w : World) (config : Config) (entries : List Entry)
    (hl : w.loadConfigResult = .ok config) (hm : w.mkdirAllOk = true)
    (hsep : ∀ db ∈ config.databases, '/' ∉ db.data)
    (ha : (mainRun w).archiveResult = some (.ok entries)) :
    entries.map (fun e => e.name) =
      (config.databases.filter (fun db => dumpOk w config db)).map (fun db => db ++ ".sql") ∧
    entries.length = (config.databases.filter (fun db => dumpOk w config db)).length ∧
    ∀ e ∈ entries, '/' ∉ e.name.data := by
  have hent := archiveResult_ok_inv w config entries hl hm ha
  have hbase : ∀ db ∈ config.databases.filter (fun db => dumpOk w config db),
      filepathBase (dumpPath config db) = db ++ ".sql" :=
    fun db hdb => dumpPath_base config db (hsep db (List.mem_of_mem_filter hdb))
  refine ⟨?_, ?_, ?_⟩
  · rw [hent, List.map_map, List.map_map]
    refine List.map_congr_left (fun db hdb => ?_)
    simp only [Function.comp_apply, mkEntry]
    exact hbase db hdb
  · rw [hent]
    simp
  · intro e he
    rw [hent] at he
    simp only [List.map_map, List.mem_map, Function.comp_apply] at he
    obtain ⟨db, hdb, rfl⟩ := he
    simp only [mkEntry]
    rw [hbase db hdb]
    exact sql_name_sep db (hsep db (List.mem_of_mem_filter hdb))

theorem C1_archive_entries_witness :
    wBase.loadConfigResult = .ok cfgW ∧ wBase.mkdirAllOk = true ∧
    (∀ db ∈ cfgW.databases, '/' ∉ db.data) ∧
    (mainRun wBase).archiveResult =
      some (.ok [⟨"app.sql", 3, [45, 45, 10]⟩]) ∧
    (([⟨"app.sql", 3, [45, 45, 10]⟩] : List Entry).map (fun e => e.name) =
      (cfgW.databases.filter (fun db => dumpOk wBase cfgW db)).map (fun db => db ++ ".sql") ∧
    ([⟨"app.sql", 3, [45, 45, 10]⟩] : List Entry).length =
      (cfgW.databases.filter (fun db => dumpOk wBase cfgW db)).length ∧
    ∀ e ∈ ([⟨"app.sql", 3, [45, 45, 10]⟩] : List Entry), '/' ∉ e.name.data) :=
  ⟨rfl, rfl, by decide, rfl,
    C1_archive_entries wBase cfgW [⟨"app.sql", 3, [45, 45, 10]⟩] rfl rfl (by decide) rfl⟩

/-- C2: per-database dump failures are non-fatal: the loop attempts every
configured database in order, a failing database's dump path is not
collected, and a log line carrying the database name and the underlying
error is emitted; the run still proceeds to invoke the archive stage. -/
theorem C2_dump_failure_skipped (w : World) (config : Config)
    (hl : w.loadConfigResult = .ok config) (hm : w.mkdirAllOk = true) :
    (mainRun w).attempts = config.databases ∧
    (mainRun w).archiveCall.isSome = true ∧
    ∀ db ∈ config.databases, dumpOk w config db = false →
      (dumpPath config db ∉ (mainRun w).backupFiles ∧
        ("failed to backup database " ++ db ++ ": " ++ dumpErrMsg w config db) ∈
          (mainRun w).dumpLogs ∧
        insideStr db ("failed to backup database " ++ db ++ ": " ++ dumpErrMsg w config db) =
          true) := by
  obtain ⟨h1, h2, h3, -, h5, -⟩ := mainStages_fields w config
  rw [mainRun_eq_stages w config hl hm, h2, h5, runState, dumpLoop_attempts]
  refine ⟨rfl, rfl, fun db hdb hfail => ?_⟩
  rw [h3, h1, runState, dumpLoop_files, dumpLoop_logs]
  refine ⟨?_, ?_, ?_⟩
  · intro hmem
    obtain ⟨db2, hdb2, hpath⟩ := List.mem_map.mp hmem
    have : db2 = db := dumpPath_inj config db2 db hpath
    subst this
    have := (List.mem_filter.mp hdb2).2
    rw [hfail] at this
    exact absurd this (by simp)
  · refine List.mem_map_of_mem _ (List.mem_filter.mpr ⟨hdb, ?_⟩)
    simp [hfail]
  · rw [str_append_assoc ("failed to backup database " ++ db) ": " (dumpErrMsg w config db)]
    exact insideStr_sandwich "failed to backup database " db (": " ++ dumpErrMsg w config db)

theorem C2_dump_failure_skipped_witness :
    wBase.loadConfigResult = .ok cfgW ∧ wBase.mkdirAllOk = true ∧
    ((mainRun wBase).attempts = cfgW.databases ∧
      (mainRun wBase).archiveCall.isSome = true ∧
      ∀ db ∈ cfgW.databases, dumpOk wBase cfgW db = false →
        (dumpPath cfgW db ∉ (mainRun wBase).backupFiles ∧
          ("failed to backup database " ++ db ++ ": " ++ dumpErrMsg wBase cfgW db) ∈
            (mainRun wBase).dumpLogs ∧
          insideStr db ("failed to backup database " ++ db ++ ": " ++ dumpErrMsg wBase cfgW db) =
            true)) :=
  ⟨rfl, rfl, C2_dump_failure_skipped wBase cfgW rfl rfl⟩

/-- C10: a database whose dump fails after os.Create succeeded (mysqldump
fails to start or exits non-zero) leaves its created, possibly partially
written, dump file on disk, yet its path is never collected and no archive
entry stems from it. Database names are assumed free of the path separator,
as every valid MySQL database name is. -/
theorem C10_failed_dump_remains (w : World) (config : Config) (db : String)
    (hl : w.loadConfigResult = .ok config) (hm : w.mkdirAllOk = true)
    (hdb : db ∈ config.databases)
    (hcr : w.createOk (dumpPath config db) = true)
    (hrun : w.dumpRunOk db = false)
    (hsep : ∀ d ∈ config.databases, '/' ∉ d.data) :
    dumpPath config db ∈ (mainRun w).diskFiles ∧
    dumpPath config db ∉ (mainRun w).backupFiles ∧
    ∀ entries, (mainRun w).archiveResult = some (.ok entries) →
      (db ++ ".sql") ∉ entries.map (fun e => e.name) := by
  have hfail : dumpOk w config db = false := by
    rw [dumpOk, hcr, hrun]
    rfl
  obtain ⟨-, -, h3, h4, -, -⟩ := mainStages_fields w config
  rw [mainRun_eq_stages w config hl hm, h3, h4, runState, dumpLoop_files, dumpLoop_disk]
  refine ⟨?_, ?_, ?_⟩
  · exact List.mem_append.mpr
      (Or.inl (List.mem_map_of_mem _ (List.mem_filter.mpr ⟨hdb, by simp [hcr]⟩)))
  · intro hmem
    obtain ⟨db2, hdb2, hpath⟩ := List.mem_map.mp hmem
    have heq : db2 = db := dumpPath_inj config db2 db hpath
    subst heq
    have := (List.mem_filter.mp hdb2).2
    rw [hfail] at this
    exact absurd this (by simp)
  · intro entries ha hmem
    rw [← mainRun_eq_stages w config hl hm] at ha
    have hent := archiveResult_ok_inv w config entries hl hm ha
    rw [hent] at hmem
    simp only [List.map_map, List.mem_map, Function.comp_apply] at hmem
    obtain ⟨db2, hdb2, hname⟩ := hmem
    simp only [mkEntry] at hname
    rw [dumpPath_base config db2 (hsep db2 (List.mem_of_mem_filter hdb2))] at hname
    have heq : db2 = db := append_sql_inj db2 db hname
    subst heq
    have := (List.mem_filter.mp hdb2).2
    rw [hfail] at this
    exact absurd this (by simp)

theorem C10_failed_dump_remains_witness :
    wBase.loadConfigResult = .ok cfgW ∧ wBase.mkdirAllOk = true ∧
    "billing" ∈ cfgW.databases ∧
    wBase.createOk (dumpPath cfgW "billing") = true ∧
    wBase.dumpRunOk "billing" = false ∧
    (∀ d ∈ cfgW.databases, '/' ∉ d.data) ∧
    (dumpPath cfgW "billing" ∈ (mainRun wBase).diskFiles ∧
      dumpPath cfgW "billing" ∉ (mainRun wBase).backupFiles ∧
      ∀ entries, (mainRun wBase).archiveResult = some (.ok entries) →
        ("billing" ++ ".sql") ∉ entries.map (fun e => e.name)) :=
  ⟨rfl, rfl, by decide, rfl, rfl, by decide,
    C10_failed_dump_remains wBase cfgW "billing" rfl rfl (by decide) rfl rfl (by decide)⟩

/-- C7: unpacking a successfully produced archive yields, in order, each
original dump file's base name paired with a byte-identical copy of its
contents (the Go standard library tar and gzip codecs being modelled as
entry-preserving). -/
theorem C7_roundtrip (w : World) (files : List String) (entries : List Entry)
    (h : archiveLoop w files = .ok entries) :
    unpackArchive entries = files.map (fun f => (filepathBase f, w.fileContents f)) := by
  rw [unpackArchive, archiveLoop_ok_inv w files entries h, List.map_map]
  rfl

theorem C7_roundtrip_witness :
    archiveLoop wBase ["backups/app.sql"] = .ok [⟨"app.sql", 3, [45, 45, 10]⟩] ∧
    unpackArchive [⟨"app.sql", 3, [45, 45, 10]⟩] =
      ["backups/app.sql"].map (fun f => (filepathBase f, wBase.fileContents f)) :=
  ⟨rfl, C7_roundtrip wBase ["backups/app.sql"] [⟨"app.sql", 3, [45, 45, 10]⟩] rfl⟩

/-- C8: the archive path is the backup directory joined with
"backup_<timestamp>.tar.gz" at seconds resolution, and two runs over the
same backup directory whose start instants differ (at that resolution)
produce distinct archive paths, so neither overwrites the other's archive. -/
theorem C8_distinct_paths (w1 w2 : World) (config1 config2 : Config)
    (hl1 : w1.loadConfigResult = .ok config1) (hm1 : w1.mkdirAllOk = true)
    (hl2 : w2.loadConfigResult = .ok config2) (hm2 : w2.mkdirAllOk = true)
    (hdir : config1.backupDirectory = config2.backupDirectory)
    (hv1 : w1.now.Valid) (hv2 : w2.now.Valid) (hne : w1.now ≠ w2.now) :
    (mainRun w1).archiveCall =
      some ((runState w1 config1).files, archivePathOf config1 w1.now) ∧
    (mainRun w2).archiveCall =
      some ((runState w2 config2).files, archivePathOf config2 w2.now) ∧
    archivePathOf config1 w1.now ≠ archivePathOf config2 w2.now := by
  refine ⟨?_, ?_, ?_⟩
  · rw [mainRun_eq_stages w1 config1 hl1 hm1]
    exact (mainStages_fields w1 config1).2.2.2.2.1
  · rw [mainRun_eq_stages w2 config2 hl2 hm2]
    exact (mainStages_fields w2 config2).2.2.2.2.1
  · intro heq
    rw [archivePathOf, archivePathOf, ← hdir] at heq
    have h2 := filepathJoin_inj _ _ _ heq
    have h3 := congrArg String.data h2
    simp only [String.data_append, List.append_assoc] at h3
    have h4 := List.append_cancel_left h3
    have h5 := List.append_cancel_right h4
    exact hne (formatTimestamp_inj w1.now w2.now hv1 hv2 (String.ext h5))

theorem C8_distinct_paths_witness :
    wBase.loadConfigResult = .ok cfgW ∧ wBase.mkdirAllOk = true ∧
    wLater.loadConfigResult = .ok cfgW ∧ wLater.mkdirAllOk = true ∧
    cfgW.backupDirectory = cfgW.backupDirectory ∧
    wBase.now.Valid ∧ wLater.now.Valid ∧ wBase.now ≠ wLater.now ∧
    ((mainRun wBase).archiveCall =
        some ((runState wBase cfgW).files, archivePathOf cfgW wBase.now) ∧
      (mainRun wLater).archiveCall =
        some ((runState wLater cfgW).files, archivePathOf cfgW wLater.now) ∧
      archivePathOf cfgW wBase.now ≠ archivePathOf cfgW wLater.now) :=
  ⟨rfl, rfl, rfl, rfl, rfl, by unfold DateTime.Valid; decide, by unfold DateTime.Valid; decide,
    by decide,
    C8_distinct_paths wBase wLater cfgW cfgW rfl rfl rfl rfl rfl
      (by unfold DateTime.Valid; decide) (by unfold DateTime.Valid; decide) (by decide)⟩

/-- C5 as stated is false on the code: a failure of the tar header write
aborts the archive operation, but the error main.go:91 returns wraps only
the underlying cause and does not identify the offending file. Concretely,
with input file "backups/app.sql" and the header write failing with cause
"disk full", the returned error is "failed to write file header into
archive: disk full", which does not contain the file name. -/
theorem C5_counterexample :
    (archiveFiles wHeadFail ["backups/app.sql"] "backups/backup_x.tar.gz").1 =
      .error "failed to write file header into archive: disk full" ∧
    insideStr "backups/app.sql" "failed to write file header into archive: disk full" =
      false :=
  ⟨rfl, rfl⟩

/-- C5 amended: any I/O failure during the archive operation aborts the
whole operation with the first failing step's wrapped error; the archive
create, stat, header-creation, file-open and byte-copy errors identify the
offending file, while the header-write error carries only the underlying
cause; the archive file, once created, is never deleted. -/
theorem C5_archive_error (w : World) (files : List String) (archivePath e : String)
    (h : (archiveFiles w files archivePath).1 = .error e) :
    (archiveFiles w files archivePath).2 = w.createOk archivePath ∧
    (e = "failed to create archive: " ++ w.createErr archivePath ∨
      ∃ f ∈ files,
        (e = "failed to get file information " ++ f ++ ": " ++ w.statErr f ∧
          insideStr f e = true) ∨
        (e = "failed to create file header " ++ f ++ ": " ++ w.headerErr f ∧
          insideStr f e = true) ∨
        (e = "failed to write file header into archive: " ++ w.writeHeadErr f) ∨
        (e = "failed to open file " ++ f ++ ": " ++ w.openErr f ∧ insideStr f e = true) ∨
        (e = "failed to write file " ++ f ++ " into archive: " ++ w.copyErr f ∧
          insideStr f e = true)) := by
  refine ⟨archiveFiles_snd w files archivePath, ?_⟩
  rw [archiveFiles] at h
  by_cases hcr : w.createOk archivePath = false
  · rw [if_pos hcr] at h
    simp only [Except.error.injEq] at h
    exact Or.inl h.symm
  · rw [if_neg hcr] at h
    exact Or.inr (archiveLoop_error_inv w files e h)

theorem C5_archive_error_witness :
    (archiveFiles wStatFail ["backups/app.sql"] "backups/backup_x.tar.gz").1 =
      .error "failed to get file information backups/app.sql: no such file" ∧
    ((archiveFiles wStatFail ["backups/app.sql"] "backups/backup_x.tar.gz").2 =
        wStatFail.createOk "backups/backup_x.tar.gz" ∧
      ("failed to get file information backups/app.sql: no such file" =
          "failed to create archive: " ++ wStatFail.createErr "backups/backup_x.tar.gz" ∨
        ∃ f ∈ ["backups/app.sql"],
          ("failed to get file information backups/app.sql: no such file" =
              "failed to get file information " ++ f ++ ": " ++ wStatFail.statErr f ∧
            insideStr f "failed to get file information backups/app.sql: no such file" =
              true) ∨
          ("failed to get file information backups/app.sql: no such file" =
              "failed to create file header " ++ f ++ ": " ++ wStatFail.headerErr f ∧
            insideStr f "failed to get file information backups/app.sql: no such file" =
              true) ∨
          ("failed to get file information backups/app.sql: no such file" =
            "failed to write file header into archive: " ++ wStatFail.writeHeadErr f) ∨
          ("failed to get file information backups/app.sql: no such file" =
              "failed to open file " ++ f ++ ": " ++ wStatFail.openErr f ∧
            insideStr f "failed to get file information backups/app.sql: no such file" =
              true) ∨
          ("failed to get file information backups/app.sql: no such file" =
              "failed to write file " ++ f ++ " into archive: " ++ wStatFail.copyErr f ∧
            insideStr f "failed to get file information backups/app.sql: no such file" =
              true))) :=
  ⟨rfl, C5_archive_error wStatFail ["backups/app.sql"] "backups/backup_x.tar.gz"
    "failed to get file information backups/app.sql: no such file" rfl⟩
